import Mathlib

/-!
Shallow embedding of the provider-slicervm Crossplane adapter.

The definitions below translate `internal/controller/vm/vm.go` and the VM
schema from `apis/vm/v1alpha1/vm_types.go`.  The remote Slicer API and the
Kubernetes client are modelled as environments of response functions; every
adapter operation additionally records the list of remote calls it issued, so
that "performs zero remote calls" style properties are directly statable.
Machine integers (`int` fields CPUs and RAMGB) are modelled as `Int`;
creation timestamps are modelled as `Nat` with `timeString` standing for
Go's `time.Time.String()`.
-/

namespace SlicerVM

/-- Error message constant `errNotVM` from vm.go. -/
def errNotVM : String := "managed resource is not a VM custom resource"

/-- Error message constant `errTrackPCUsage` from vm.go. -/
def errTrackPCUsage : String := "cannot track ProviderConfig usage"

/-- Error message constant `errGetPC` from vm.go. -/
def errGetPC : String := "cannot get ProviderConfig"

/-- Error message constant `errGetCPC` from vm.go. -/
def errGetCPC : String := "cannot get ClusterProviderConfig"

/-- Error message constant `errGetCreds` from vm.go. -/
def errGetCreds : String := "cannot get credentials"

/-- Rendering of `errors.Wrap(err, msg)`: the message prefixed to the cause. -/
def wrapErr (msg err : String) : String := msg ++ ": " ++ err

/-- A node returned by the Slicer SDK (`sdk.SlicerNode`): hostname, IP and
creation time.  The creation time is modelled as a `Nat` timestamp. -/
structure SlicerNode where
  hostname : String
  ip : String
  createdAt : Nat
deriving DecidableEq

/-- Stringification of a creation time, standing for `time.Time.String()`. -/
def timeString (t : Nat) : String := toString t

/-- The request body of the SDK creation call (`sdk.SlicerCreateNodeRequest`).
Fields left at their Go zero value are `0`, `""` or `[]`. -/
structure SlicerCreateNodeRequest where
  ramGB : Int
  cpus : Int
  userdata : String
  sshKeys : List String
  importUser : String
  tags : List String
deriving DecidableEq

/-- `VMParameters` from vm_types.go: the desired state of a VM. -/
structure VMParameters where
  hostGroup : String
  cpus : Int
  ramGB : Int
  userdata : String
  sshKeys : List String
  importUser : String
  tags : List String
deriving DecidableEq

/-- `VMObservation` from vm_types.go: the observed state of a VM. -/
structure VMObservation where
  hostname : String
  ip : String
  state : String
  createdAt : String
deriving DecidableEq

/-- The reason of the Ready condition set by `SetConditions`
(`xpv1.Available()`, `xpv1.Creating()`, `xpv1.Deleting()`). -/
inductive ReadyReason where
  | Available
  | Creating
  | Deleting
deriving DecidableEq

/-- The provider-config reference carried by the managed resource
(`GetProviderConfigReference`): a kind discriminator and a name. -/
structure ProviderConfigReference where
  kind : String
  name : String
deriving DecidableEq

/-- A VM managed resource: the `crossplane.io/external-name` annotation
(`""` when unset), the deletion mark (`meta.WasDeleted`), its namespace and
provider-config reference, the desired and observed state, and the Ready
condition last set via `SetConditions`. -/
structure VMResource where
  extName : String
  wasDeleted : Bool
  resNamespace : String
  providerConfigRef : ProviderConfigReference
  forProvider : VMParameters
  atProvider : VMObservation
  readyCondition : Option ReadyReason
deriving DecidableEq

/-- A `resource.Managed` argument: either a VM custom resource or some other
managed resource (on which the adapter's type assertion fails). -/
inductive Managed where
  | vm (cr : VMResource)
  | notVM
deriving DecidableEq

/-- `managed.ExternalObservation`: existence, up-to-date flag and connection
details (an association list standing for the byte-map). -/
structure ExtObservation where
  resourceExists : Bool
  resourceUpToDate : Bool
  connectionDetails : List (String × String)
deriving DecidableEq

/-- `managed.ExternalCreation`: the connection details published on create. -/
structure ExtCreation where
  connectionDetails : List (String × String)
deriving DecidableEq

/-- One remote Slicer API call issued by the adapter. -/
inductive RemoteCall where
  | listNodes (hostGroup : String)
  | createNode (hostGroup : String) (req : SlicerCreateNodeRequest)
  | deleteVM (hostGroup : String) (hostname : String)
deriving DecidableEq

/-- The remote Slicer API, modelled as response functions for the three SDK
calls the adapter can make. -/
structure Remote where
  getHostGroupNodes : String → Except String (List SlicerNode)
  createNode : String → SlicerCreateNodeRequest → Except String SlicerNode
  deleteVM : String → String → Except String Unit

/-- The `external` client handle produced by Connect: base URL, token and the
provider-level default host group captured at connect time. -/
structure ExtClient where
  url : String
  token : String
  hostGroup : String
deriving DecidableEq

/-- Result of one adapter operation: the remote calls issued, the (possibly
mutated) managed resource, and the returned value or error. -/
structure OpResult (α : Type) where
  calls : List RemoteCall
  res : Managed
  out : Except String α

/-- Host-group resolution shared by Observe/Create/Delete: the resource-level
field, falling back to the connect-time default when empty. -/
def resolveHostGroup (defaultHG : String) (p : VMParameters) : String :=
  if p.hostGroup = "" then defaultHG else p.hostGroup

/-- The linear scan of `Observe` over the listed nodes: the first node whose
hostname equals the external name, if any. -/
def findNode (nodes : List SlicerNode) (name : String) : Option SlicerNode :=
  match nodes with
  | [] => none
  | n :: rest => if n.hostname = name then some n else findNode rest name

/-- `external.Observe` from vm.go. -/
def Observe (e : ExtClient) (remote : Remote) (m : Managed) : OpResult ExtObservation :=
  match m with
  | .notVM => ⟨[], m, .error errNotVM⟩
  | .vm cr =>
    if cr.wasDeleted then
      ⟨[], .vm cr, .ok ⟨false, false, []⟩⟩
    else if cr.extName = "" then
      ⟨[], .vm cr, .ok ⟨false, false, []⟩⟩
    else
      let hostGroup := resolveHostGroup e.hostGroup cr.forProvider
      match remote.getHostGroupNodes hostGroup with
      | .error err => ⟨[.listNodes hostGroup], .vm cr, .error (wrapErr "cannot list VMs" err)⟩
      | .ok nodes =>
        match findNode nodes cr.extName with
        | none => ⟨[.listNodes hostGroup], .vm cr, .ok ⟨false, false, []⟩⟩
        | some found =>
          ⟨[.listNodes hostGroup],
           .vm { cr with
                  atProvider := ⟨found.hostname, found.ip, "running", timeString found.createdAt⟩,
                  readyCondition := some .Available },
           .ok ⟨true, true, []⟩⟩

/-- The creation request built by `external.Create`: the sequential field
assignments and zero-value defaulting from vm.go. -/
def buildRequest (p : VMParameters) : SlicerCreateNodeRequest :=
  let req : SlicerCreateNodeRequest := ⟨p.ramGB, p.cpus, p.userdata, [], "", []⟩
  let req := if req.ramGB = 0 then { req with ramGB := 4 } else req
  let req := if req.cpus = 0 then { req with cpus := 2 } else req
  let req := if p.sshKeys.length > 0 then { req with sshKeys := p.sshKeys } else req
  let req := if p.importUser ≠ "" then { req with importUser := p.importUser } else req
  let req := if p.tags.length > 0 then { req with tags := p.tags } else req
  req

/-- `external.Create` from vm.go. -/
def Create (e : ExtClient) (remote : Remote) (m : Managed) : OpResult ExtCreation :=
  match m with
  | .notVM => ⟨[], m, .error errNotVM⟩
  | .vm cr =>
    let cr := { cr with readyCondition := some ReadyReason.Creating }
    let hostGroup := resolveHostGroup e.hostGroup cr.forProvider
    let req := buildRequest cr.forProvider
    match remote.createNode hostGroup req with
    | .error err => ⟨[.createNode hostGroup req], .vm cr, .error (wrapErr "cannot create VM" err)⟩
    | .ok resp =>
      ⟨[.createNode hostGroup req],
       .vm { cr with
              extName := resp.hostname,
              atProvider := { cr.atProvider with
                                hostname := resp.hostname,
                                ip := resp.ip,
                                createdAt := timeString resp.createdAt } },
       .ok ⟨[("hostname", resp.hostname), ("ip", resp.ip)]⟩⟩

/-- `external.Update` from vm.go: a no-op that ignores its input. -/
def Update (_e : ExtClient) (_remote : Remote) (m : Managed) : OpResult Unit :=
  ⟨[], m, .ok ()⟩

/-- `external.Delete` from vm.go. -/
def Delete (e : ExtClient) (remote : Remote) (m : Managed) : OpResult Unit :=
  match m with
  | .notVM => ⟨[], m, .error errNotVM⟩
  | .vm cr =>
    let cr := { cr with readyCondition := some ReadyReason.Deleting }
    if cr.extName = "" then
      ⟨[], .vm cr, .ok ()⟩
    else
      let hostGroup := resolveHostGroup e.hostGroup cr.forProvider
      match remote.deleteVM hostGroup cr.extName with
      | .error err => ⟨[.deleteVM hostGroup cr.extName], .vm cr, .error (wrapErr "cannot delete VM" err)⟩
      | .ok _ => ⟨[.deleteVM hostGroup cr.extName], .vm cr, .ok ()⟩

/-- The resolved spec of a `ProviderConfig` or `ClusterProviderConfig`: URL,
host group and an opaque credential descriptor. -/
structure ProviderConfigSpec where
  url : String
  hostGroup : String
  credentials : String
deriving DecidableEq

/-- One Kubernetes-side call issued by Connect: usage tracking, fetching a
configuration object, or extracting credentials. -/
inductive ConnectCall where
  | track
  | getPC (name ns : String)
  | getCPC (name : String)
  | getCreds (credentials : String)
deriving DecidableEq

/-- The Kubernetes-side environment of Connect: the usage tracker, the two
configuration fetches, and the common credential extractor. -/
structure ConnectEnv where
  track : Except String Unit
  getPC : String → String → Except String ProviderConfigSpec
  getCPC : String → Except String ProviderConfigSpec
  getCreds : String → Except String String

/-- Result of Connect: the Kubernetes-side calls issued and the produced
client handle or error. -/
structure ConnectResult where
  calls : List ConnectCall
  out : Except String ExtClient

/-- `connector.Connect` from vm.go: type assertion, usage tracking, the kind
switch, post-resolution defaulting of URL and host group, and credential
extraction. -/
def Connect (env : ConnectEnv) (m : Managed) : ConnectResult :=
  match m with
  | .notVM => ⟨[], .error errNotVM⟩
  | .vm cr =>
    match env.track with
    | .error err => ⟨[.track], .error (wrapErr errTrackPCUsage err)⟩
    | .ok _ =>
      let ref := cr.providerConfigRef
      let fetched : Option (ConnectCall × Except String ProviderConfigSpec × String) :=
        if ref.kind = "ProviderConfig" then
          some (.getPC ref.name cr.resNamespace, env.getPC ref.name cr.resNamespace, errGetPC)
        else if ref.kind = "ClusterProviderConfig" then
          some (.getCPC ref.name, env.getCPC ref.name, errGetCPC)
        else
          none
      match fetched with
      | none => ⟨[.track], .error ("unsupported provider config kind: " ++ ref.kind)⟩
      | some (call, result, wrapMsg) =>
        match result with
        | .error err => ⟨[.track, call], .error (wrapErr wrapMsg err)⟩
        | .ok cfg =>
          let url := if cfg.url = "" then "http://127.0.0.1:8080" else cfg.url
          let hostGroup := if cfg.hostGroup = "" then "api" else cfg.hostGroup
          match env.getCreds cfg.credentials with
          | .error err => ⟨[.track, call, .getCreds cfg.credentials], .error (wrapErr errGetCreds err)⟩
          | .ok token => ⟨[.track, call, .getCreds cfg.credentials], .ok ⟨url, token, hostGroup⟩⟩

/-- Which adapter operation runs next in a reconciliation trace (Create is
treated separately, as the sole writer of the external name). -/
inductive OpKind where
  | observe
  | update
  | delete
deriving DecidableEq

/-- Run one non-Create adapter operation and keep the resulting resource. -/
def runOp (e : ExtClient) (remote : Remote) (m : Managed) : OpKind → Managed
  | .observe => (Observe e remote m).res
  | .update => (Update e remote m).res
  | .delete => (Delete e remote m).res

/-- Run a sequence of non-Create adapter operations. -/
def runOps (e : ExtClient) (remote : Remote) : Managed → List OpKind → Managed
  | m, [] => m
  | m, op :: rest => runOps e remote (runOp e remote m op) rest

/-- The external name of a managed resource, when it is a VM. -/
def extNameOf : Managed → Option String
  | .vm cr => some cr.extName
  | .notVM => none

/-- Sample node used by concrete witnesses. -/
def node0 : SlicerNode := ⟨"vm-1", "10.0.0.5", 42⟩

/-- Sample remote API used by concrete witnesses: one node, all calls succeed. -/
def remote0 : Remote :=
  ⟨fun _ => .ok [node0], fun _ _ => .ok node0, fun _ _ => .ok ()⟩

/-- Sample client handle used by concrete witnesses. -/
def e0 : ExtClient := ⟨"http://127.0.0.1:8080", "tok", "api"⟩

/-- Sample desired state with every field at its zero value. -/
def params0 : VMParameters := ⟨"", 0, 0, "", [], "", []⟩

/-- Sample empty observed state. -/
def obs0 : VMObservation := ⟨"", "", "", ""⟩

/-- Sample reference to a namespaced provider config. -/
def ref0 : ProviderConfigReference := ⟨"ProviderConfig", "default"⟩

/-- Sample VM with no external name assigned. -/
def cr0 : VMResource := ⟨"", false, "ns1", ref0, params0, obs0, none⟩

/-- Sample VM whose external name matches `node0`. -/
def cr1 : VMResource := ⟨"vm-1", false, "ns1", ref0, params0, obs0, none⟩

/-- Sample VM marked for deletion. -/
def crDel : VMResource := ⟨"vm-1", true, "ns1", ref0, params0, obs0, none⟩

/-- Sample resolved provider config spec with empty URL and host group. -/
def spec0 : ProviderConfigSpec := ⟨"", "", "cred"⟩

/-- Sample Kubernetes-side environment where every call succeeds. -/
def env0 : ConnectEnv := ⟨.ok (), fun _ _ => .ok spec0, fun _ => .ok spec0, fun _ => .ok "tok"⟩

/-- Sample VM referencing a cluster-scoped provider config. -/
def crCPC : VMResource :=
  ⟨"", false, "ns1", ⟨"ClusterProviderConfig", "default"⟩, params0, obs0, none⟩

/-- Sample VM referencing an unsupported provider config kind. -/
def crBad : VMResource := ⟨"", false, "ns1", ⟨"SomeOtherKind", "default"⟩, params0, obs0, none⟩

/-- The scan returns `none` exactly when no listed node matches. -/
theorem findNode_eq_none_iff (nodes : List SlicerNode) (name : String) :
    findNode nodes name = none ↔ ∀ n ∈ nodes, n.hostname ≠ name := by
  induction nodes with
  | nil => simp [findNode]
  | cons x rest ih =>
    by_cases hx : x.hostname = name
    · simp [findNode, hx]
    · simp [findNode, hx, ih]

/-- The scan returns the first matching node in list order. -/
theorem findNode_mem_first (nodes : List SlicerNode) (name : String) (n : SlicerNode)
    (h : findNode nodes name = some n) :
    ∃ pre post, nodes = pre ++ n :: post ∧ n.hostname = name ∧
      ∀ x ∈ pre, x.hostname ≠ name := by
  induction nodes with
  | nil => simp [findNode] at h
  | cons y rest ih =>
    by_cases hy : y.hostname = name
    · have hn : y = n := by simpa [findNode, hy] using h
      subst hn
      exact ⟨[], rest, rfl, hy, by simp⟩
    · have h' : findNode rest name = some n := by simpa [findNode, hy] using h
      obtain ⟨pre, post, hsplit, hm, hpre⟩ := ih h'
      refine ⟨y :: pre, post, by simp [hsplit], hm, ?_⟩
      intro x hx
      rcases List.mem_cons.mp hx with rfl | hx'
      · exact hy
      · exact hpre x hx'

/-- The RAM field of the built request: default 4 on the zero value. -/
theorem buildRequest_ramGB (p : VMParameters) :
    (buildRequest p).ramGB = if p.ramGB = 0 then 4 else p.ramGB := by
  by_cases h1 : p.ramGB = 0 <;> by_cases h2 : p.cpus = 0 <;>
    by_cases h3 : p.sshKeys.length > 0 <;> by_cases h4 : p.importUser = "" <;>
    by_cases h5 : p.tags.length > 0 <;>
      simp [buildRequest, h1, h2, h3, h4, h5]

/-- The CPU field of the built request: default 2 on the zero value. -/
theorem buildRequest_cpus (p : VMParameters) :
    (buildRequest p).cpus = if p.cpus = 0 then 2 else p.cpus := by
  by_cases h1 : p.ramGB = 0 <;> by_cases h2 : p.cpus = 0 <;>
    by_cases h3 : p.sshKeys.length > 0 <;> by_cases h4 : p.importUser = "" <;>
    by_cases h5 : p.tags.length > 0 <;>
      simp [buildRequest, h1, h2, h3, h4, h5]

/-- C7: Update returns no error, issues zero remote calls and leaves the
resource untouched, for every input — including one that is not a VM. -/
theorem update_is_noop (e : ExtClient) (remote : Remote) (m : Managed) :
    Update e remote m = ⟨[], m, .ok ()⟩ := rfl

/-- C4: Observe on a resource marked for deletion, or with an empty external
name, reports non-existence with zero remote calls and an unchanged resource,
regardless of the remote node list. -/
theorem observe_short_circuits (e : ExtClient) (remote : Remote) (cr : VMResource)
    (h : cr.wasDeleted = true ∨ cr.extName = "") :
    Observe e remote (.vm cr) = ⟨[], .vm cr, .ok ⟨false, false, []⟩⟩ := by
  rcases h with h | h
  · simp [Observe, h]
  · by_cases hd : cr.wasDeleted <;> simp [Observe, h, hd]

/-- Witness for C4 at a deleted VM and at a VM with no external name, against
a remote that does hold a matching node. -/
theorem observe_short_circuits_witness :
    Observe e0 remote0 (.vm crDel) = ⟨[], .vm crDel, .ok ⟨false, false, []⟩⟩
    ∧ Observe e0 remote0 (.vm cr0) = ⟨[], .vm cr0, .ok ⟨false, false, []⟩⟩ :=
  ⟨observe_short_circuits e0 remote0 crDel (Or.inl rfl),
   observe_short_circuits e0 remote0 cr0 (Or.inr rfl)⟩

/-- C8: a reference kind other than ProviderConfig and ClusterProviderConfig
makes Connect fail with the "unsupported kind" error carrying the literal kind
string, after usage tracking but before any fetch or credential call. -/
theorem connect_rejects_unsupported_kind (env : ConnectEnv) (cr : VMResource)
    (htrack : env.track = .ok ())
    (h1 : cr.providerConfigRef.kind ≠ "ProviderConfig")
    (h2 : cr.providerConfigRef.kind ≠ "ClusterProviderConfig") :
    Connect env (.vm cr) =
      ⟨[.track], .error ("unsupported provider config kind: " ++ cr.providerConfigRef.kind)⟩ := by
  simp [Connect, htrack, h1, h2]

/-- Witness for C8 at the concrete kind "SomeOtherKind". -/
theorem connect_rejects_unsupported_kind_witness :
    Connect env0 (.vm crBad) =
      ⟨[.track], .error ("unsupported provider config kind: " ++ crBad.providerConfigRef.kind)⟩ :=
  connect_rejects_unsupported_kind env0 crBad rfl (by decide) (by decide)

/-- C3: the creation request Create issues carries RAM 4 exactly on a zero
RAMGB field and CPU 2 exactly on a zero CPUs field, and the exact field
values otherwise. -/
theorem create_request_defaults (e : ExtClient) (remote : Remote) (cr : VMResource) :
    (Create e remote (.vm cr)).calls =
      [.createNode (resolveHostGroup e.hostGroup cr.forProvider) (buildRequest cr.forProvider)]
    ∧ (buildRequest cr.forProvider).ramGB =
        (if cr.forProvider.ramGB = 0 then 4 else cr.forProvider.ramGB)
    ∧ (buildRequest cr.forProvider).cpus =
        (if cr.forProvider.cpus = 0 then 2 else cr.forProvider.cpus) := by
  refine ⟨?_, buildRequest_ramGB _, buildRequest_cpus _⟩
  cases hc : remote.createNode (resolveHostGroup e.hostGroup cr.forProvider)
      (buildRequest cr.forProvider) with
  | error err => simp [Create, hc]
  | ok resp => simp [Create, hc]

/-- C2: a successful Create sets the external name to the returned hostname,
copies hostname, IP and stringified creation time into the observation, and
returns a connection-details map holding exactly the keys "hostname" and
"ip" with the returned values. -/
theorem create_success_contract (e : ExtClient) (remote : Remote) (cr : VMResource)
    (resp : SlicerNode)
    (hc : remote.createNode (resolveHostGroup e.hostGroup cr.forProvider)
        (buildRequest cr.forProvider) = .ok resp) :
    (Create e remote (.vm cr)).out =
      .ok ⟨[("hostname", resp.hostname), ("ip", resp.ip)]⟩
    ∧ (Create e remote (.vm cr)).res =
      .vm { cr with
              readyCondition := some ReadyReason.Creating,
              extName := resp.hostname,
              atProvider := { cr.atProvider with
                                hostname := resp.hostname,
                                ip := resp.ip,
                                createdAt := timeString resp.createdAt } } := by
  constructor <;> simp [Create, hc]

/-- Witness for C2 at a concrete VM and remote response. -/
theorem create_success_contract_witness :
    (Create e0 remote0 (.vm cr0)).out =
      .ok ⟨[("hostname", node0.hostname), ("ip", node0.ip)]⟩ :=
  (create_success_contract e0 remote0 cr0 node0 rfl).1

/-- C5 counterexample: at a concrete VM with an empty external name, Delete
still sets the Deleting condition, refuting "the Deleting condition is set
only when an external name is assigned". -/
theorem delete_deleting_condition_counterexample :
    cr0.extName = ""
    ∧ (Delete e0 remote0 (.vm cr0)).res =
        .vm { cr0 with readyCondition := some ReadyReason.Deleting }
    ∧ ¬ (∀ c, (Delete e0 remote0 (.vm cr0)).res = .vm c →
          c.readyCondition ≠ some ReadyReason.Deleting) := by
  refine ⟨rfl, by decide, ?_⟩
  intro h
  exact h { cr0 with readyCondition := some ReadyReason.Deleting } (by decide) rfl

/-- C5 amended: Delete sets the Deleting condition unconditionally (before the
external-name check); with an empty external name it performs zero remote
calls and returns no error; otherwise it issues one deletion request for the
resolved host group and external name and wraps any failure. -/
theorem delete_contract (e : ExtClient) (remote : Remote) (cr : VMResource) :
    (Delete e remote (.vm cr)).res = .vm { cr with readyCondition := some ReadyReason.Deleting }
    ∧ (cr.extName = "" →
        (Delete e remote (.vm cr)).calls = [] ∧ (Delete e remote (.vm cr)).out = .ok ())
    ∧ (cr.extName ≠ "" →
        (Delete e remote (.vm cr)).calls =
          [.deleteVM (resolveHostGroup e.hostGroup cr.forProvider) cr.extName]
        ∧ (∀ err, remote.deleteVM (resolveHostGroup e.hostGroup cr.forProvider) cr.extName
              = .error err →
            (Delete e remote (.vm cr)).out = .error (wrapErr "cannot delete VM" err))
        ∧ (remote.deleteVM (resolveHostGroup e.hostGroup cr.forProvider) cr.extName = .ok () →
            (Delete e remote (.vm cr)).out = .ok ())) := by
  by_cases hn : cr.extName = ""
  · refine ⟨by simp [Delete, hn], fun _ => ⟨by simp [Delete, hn], by simp [Delete, hn]⟩,
      fun h => absurd hn h⟩
  · cases hd : remote.deleteVM (resolveHostGroup e.hostGroup cr.forProvider) cr.extName with
    | error err =>
      refine ⟨by simp [Delete, hn, hd], fun h => absurd h hn,
        fun _ => ⟨by simp [Delete, hn, hd], ?_, ?_⟩⟩
      · intro err' herr'
        injection herr' with he
        subst he
        simp [Delete, hn, hd]
      · intro hok
        exact Except.noConfusion hok
    | ok u =>
      cases u
      refine ⟨by simp [Delete, hn, hd], fun h => absurd h hn,
        fun _ => ⟨by simp [Delete, hn, hd], ?_, fun _ => by simp [Delete, hn, hd]⟩⟩
      intro err herr
      exact Except.noConfusion herr

/-- Witness for the amended C5 at a VM without and a VM with an external
name. -/
theorem delete_contract_witness :
    ((Delete e0 remote0 (.vm cr0)).calls = [] ∧ (Delete e0 remote0 (.vm cr0)).out = .ok ())
    ∧ (Delete e0 remote0 (.vm cr1)).calls =
        [.deleteVM (resolveHostGroup e0.hostGroup cr1.forProvider) cr1.extName]
    ∧ (Delete e0 remote0 (.vm cr1)).out = .ok () :=
  ⟨(delete_contract e0 remote0 cr0).2.1 rfl,
   ((delete_contract e0 remote0 cr1).2.2 (by decide)).1,
   ((delete_contract e0 remote0 cr1).2.2 (by decide)).2.2 rfl⟩

/-- C1: for a live, named VM whose host-group listing succeeds, Observe
reports a match iff some listed node's hostname equals the external name,
taking the first match in list order; on a match it copies hostname, IP and
stringified creation time, sets state "running" and the Ready condition
Available, and returns existence with up-to-date; with no match it reports
non-existence. -/
theorem observe_match_contract (e : ExtClient) (remote : Remote) (cr : VMResource)
    (nodes : List SlicerNode)
    (hdel : cr.wasDeleted = false) (hname : cr.extName ≠ "")
    (hlist : remote.getHostGroupNodes (resolveHostGroup e.hostGroup cr.forProvider) = .ok nodes) :
    ((Observe e remote (.vm cr)).out = .ok ⟨true, true, []⟩ ↔
      ∃ n ∈ nodes, n.hostname = cr.extName)
    ∧ (∀ n, findNode nodes cr.extName = some n →
        (∃ pre post, nodes = pre ++ n :: post ∧ n.hostname = cr.extName ∧
          ∀ x ∈ pre, x.hostname ≠ cr.extName)
        ∧ Observe e remote (.vm cr) =
            ⟨[.listNodes (resolveHostGroup e.hostGroup cr.forProvider)],
             .vm { cr with
                    atProvider := ⟨n.hostname, n.ip, "running", timeString n.createdAt⟩,
                    readyCondition := some ReadyReason.Available },
             .ok ⟨true, true, []⟩⟩)
    ∧ ((∀ n ∈ nodes, n.hostname ≠ cr.extName) →
        Observe e remote (.vm cr) =
          ⟨[.listNodes (resolveHostGroup e.hostGroup cr.forProvider)],
           .vm cr, .ok ⟨false, false, []⟩⟩) := by
  cases hfind : findNode nodes cr.extName with
  | none =>
    have hnm : ∀ n ∈ nodes, n.hostname ≠ cr.extName :=
      (findNode_eq_none_iff nodes cr.extName).mp hfind
    have hobs : Observe e remote (.vm cr) =
        ⟨[.listNodes (resolveHostGroup e.hostGroup cr.forProvider)],
         .vm cr, .ok ⟨false, false, []⟩⟩ := by
      simp [Observe, hdel, hname, hlist, hfind]
    refine ⟨?_, ?_, fun _ => hobs⟩
    · constructor
      · intro h
        rw [hobs] at h
        simp at h
      · rintro ⟨n, hn, hm⟩
        exact absurd hm (hnm n hn)
    · intro n hn
      exact Option.noConfusion hn
  | some n0 =>
    obtain ⟨pre, post, hsplit, hm, hpre⟩ := findNode_mem_first nodes cr.extName n0 hfind
    have hobs : Observe e remote (.vm cr) =
        ⟨[.listNodes (resolveHostGroup e.hostGroup cr.forProvider)],
         .vm { cr with
                atProvider := ⟨n0.hostname, n0.ip, "running", timeString n0.createdAt⟩,
                readyCondition := some ReadyReason.Available },
         .ok ⟨true, true, []⟩⟩ := by
      simp [Observe, hdel, hname, hlist, hfind]
    refine ⟨?_, ?_, ?_⟩
    · constructor
      · intro _
        exact ⟨n0, by rw [hsplit]; simp, hm⟩
      · intro _
        rw [hobs]
    · intro n hn
      injection hn with hn
      subst hn
      exact ⟨⟨pre, post, hsplit, hm, hpre⟩, hobs⟩
    · intro hall
      exact absurd hm (hall n0 (by rw [hsplit]; simp))

/-- Witness for C1 at a concrete VM matched by the sample remote node. -/
theorem observe_match_contract_witness :
    ((Observe e0 remote0 (.vm cr1)).out = .ok ⟨true, true, []⟩ ↔
      ∃ n ∈ [node0], n.hostname = cr1.extName)
    ∧ Observe e0 remote0 (.vm cr1) =
        ⟨[.listNodes (resolveHostGroup e0.hostGroup cr1.forProvider)],
         .vm { cr1 with
                atProvider := ⟨node0.hostname, node0.ip, "running", timeString node0.createdAt⟩,
                readyCondition := some ReadyReason.Available },
         .ok ⟨true, true, []⟩⟩ :=
  ⟨(observe_match_contract e0 remote0 cr1 [node0] rfl (by decide) rfl).1,
   ((observe_match_contract e0 remote0 cr1 [node0] rfl (by decide) rfl).2.1 node0 (by decide)).2⟩

/-- Observe never changes the external name of its input resource. -/
theorem observe_res_extName (e : ExtClient) (remote : Remote) (m : Managed) :
    extNameOf (Observe e remote m).res = extNameOf m := by
  cases m with
  | notVM => rfl
  | vm cr =>
    by_cases hd : cr.wasDeleted
    · simp [Observe, hd, extNameOf]
    · by_cases hn : cr.extName = ""
      · simp [Observe, hd, hn, extNameOf]
      · cases hl : remote.getHostGroupNodes (resolveHostGroup e.hostGroup cr.forProvider) with
        | error err => simp [Observe, hd, hn, hl, extNameOf]
        | ok nodes =>
          cases hf : findNode nodes cr.extName with
          | none => simp [Observe, hd, hn, hl, hf, extNameOf]
          | some n => simp [Observe, hd, hn, hl, hf, extNameOf]

/-- Delete never changes the external name of its input resource. -/
theorem delete_res_extName (e : ExtClient) (remote : Remote) (m : Managed) :
    extNameOf (Delete e remote m).res = extNameOf m := by
  cases m with
  | notVM => rfl
  | vm cr =>
    by_cases hn : cr.extName = ""
    · simp [Delete, hn, extNameOf]
    · cases hd : remote.deleteVM (resolveHostGroup e.hostGroup cr.forProvider) cr.extName with
      | error err => simp [Delete, hn, hd, extNameOf]
      | ok u => cases u; simp [Delete, hn, hd, extNameOf]

/-- A single non-Create operation preserves the external name. -/
theorem runOp_extName (e : ExtClient) (remote : Remote) (m : Managed) (op : OpKind) :
    extNameOf (runOp e remote m op) = extNameOf m := by
  cases op with
  | observe => exact observe_res_extName e remote m
  | update => rfl
  | delete => exact delete_res_extName e remote m

/-- A whole sequence of non-Create operations preserves the external name. -/
theorem runOps_extName (e : ExtClient) (remote : Remote) (ops : List OpKind) (m : Managed) :
    extNameOf (runOps e remote m ops) = extNameOf m := by
  induction ops generalizing m with
  | nil => rfl
  | cons op rest ih =>
    rw [runOps, ih, runOp_extName]

/-- C9: Observe, Update and Delete only read the external name — any sequence
of them leaves it unchanged — and Create is the sole writer, binding it to the
returned hostname, which also becomes the observed hostname. -/
theorem extName_immutable (e : ExtClient) (remote : Remote) :
    (∀ cr, extNameOf (Observe e remote (.vm cr)).res = some cr.extName)
    ∧ (∀ cr, extNameOf (Delete e remote (.vm cr)).res = some cr.extName)
    ∧ (∀ m, (Update e remote m).res = m)
    ∧ (∀ cr resp, remote.createNode (resolveHostGroup e.hostGroup cr.forProvider)
          (buildRequest cr.forProvider) = .ok resp →
        ∃ c, (Create e remote (.vm cr)).res = .vm c
          ∧ c.extName = resp.hostname ∧ c.atProvider.hostname = resp.hostname)
    ∧ (∀ m ops, extNameOf (runOps e remote m ops) = extNameOf m) := by
  refine ⟨fun cr => observe_res_extName e remote (.vm cr),
          fun cr => delete_res_extName e remote (.vm cr),
          fun _ => rfl,
          ?_,
          fun m ops => runOps_extName e remote ops m⟩
  intro cr resp hc
  exact ⟨{ cr with
            readyCondition := some ReadyReason.Creating,
            extName := resp.hostname,
            atProvider := { cr.atProvider with
                              hostname := resp.hostname,
                              ip := resp.ip,
                              createdAt := timeString resp.createdAt } },
         by simp [Create, hc], rfl, rfl⟩

/-- Witness for C9: a concrete trace of Observe, Update and Delete keeps the
external name, and a concrete successful Create binds it to the hostname. -/
theorem extName_immutable_witness :
    extNameOf (runOps e0 remote0 (.vm cr1) [.observe, .update, .delete]) = some cr1.extName
    ∧ ∃ c, (Create e0 remote0 (.vm cr0)).res = .vm c
        ∧ c.extName = node0.hostname ∧ c.atProvider.hostname = node0.hostname :=
  ⟨(extName_immutable e0 remote0).2.2.2.2 (.vm cr1) [.observe, .update, .delete],
   (extName_immutable e0 remote0).2.2.2.1 cr0 node0 rfl⟩

/-- C6: every remote call of Observe, Create and Delete uses the resource-level
host group when non-empty and the connect-time default otherwise, and Connect
replaces an empty URL with http://127.0.0.1:8080 and an empty host group with
"api" for both supported config kinds. -/
theorem hostGroup_resolution (e : ExtClient) (remote : Remote) (cr : VMResource)
    (env : ConnectEnv) (cfg : ProviderConfigSpec) (token : String) :
    (∀ c ∈ (Observe e remote (.vm cr)).calls,
        c = .listNodes
              (if cr.forProvider.hostGroup = "" then e.hostGroup else cr.forProvider.hostGroup))
    ∧ (Create e remote (.vm cr)).calls =
        [.createNode
          (if cr.forProvider.hostGroup = "" then e.hostGroup else cr.forProvider.hostGroup)
          (buildRequest cr.forProvider)]
    ∧ (∀ c ∈ (Delete e remote (.vm cr)).calls,
        c = .deleteVM
              (if cr.forProvider.hostGroup = "" then e.hostGroup else cr.forProvider.hostGroup)
              cr.extName)
    ∧ (env.track = .ok () → cr.providerConfigRef.kind = "ProviderConfig" →
        env.getPC cr.providerConfigRef.name cr.resNamespace = .ok cfg →
        env.getCreds cfg.credentials = .ok token →
        (Connect env (.vm cr)).out =
          .ok ⟨if cfg.url = "" then "http://127.0.0.1:8080" else cfg.url, token,
               if cfg.hostGroup = "" then "api" else cfg.hostGroup⟩)
    ∧ (env.track = .ok () → cr.providerConfigRef.kind = "ClusterProviderConfig" →
        env.getCPC cr.providerConfigRef.name = .ok cfg →
        env.getCreds cfg.credentials = .ok token →
        (Connect env (.vm cr)).out =
          .ok ⟨if cfg.url = "" then "http://127.0.0.1:8080" else cfg.url, token,
               if cfg.hostGroup = "" then "api" else cfg.hostGroup⟩) := by
  refine ⟨?_, ?_, ?_, ?_, ?_⟩
  · intro c hc
    by_cases hd : cr.wasDeleted
    · simp [Observe, hd] at hc
    · by_cases hn : cr.extName = ""
      · simp [Observe, hd, hn] at hc
      · cases hl : remote.getHostGroupNodes (resolveHostGroup e.hostGroup cr.forProvider) with
        | error err =>
          simp [Observe, hd, hn, hl] at hc
          simp [hc, resolveHostGroup]
        | ok nodes =>
          cases hf : findNode nodes cr.extName with
          | none =>
            simp [Observe, hd, hn, hl, hf] at hc
            simp [hc, resolveHostGroup]
          | some n =>
            simp [Observe, hd, hn, hl, hf] at hc
            simp [hc, resolveHostGroup]
  · have hcalls : (Create e remote (.vm cr)).calls =
        [.createNode (resolveHostGroup e.hostGroup cr.forProvider) (buildRequest cr.forProvider)] := by
      cases hcc : remote.createNode (resolveHostGroup e.hostGroup cr.forProvider)
          (buildRequest cr.forProvider) with
      | error err => simp [Create, hcc]
      | ok resp => simp [Create, hcc]
    rw [hcalls]
    simp [resolveHostGroup]
  · intro c hc
    by_cases hn : cr.extName = ""
    · simp [Delete, hn] at hc
    · cases hdl : remote.deleteVM (resolveHostGroup e.hostGroup cr.forProvider) cr.extName with
      | error err =>
        simp [Delete, hn, hdl] at hc
        simp [hc, resolveHostGroup]
      | ok u =>
        cases u
        simp [Delete, hn, hdl] at hc
        simp [hc, resolveHostGroup]
  · intro h1 h2 h3 h4
    simp [Connect, h1, h2, h3, h4]
  · intro h1 h2 h3 h4
    simp [Connect, h1, h2, h3, h4]

/-- Witness for C6: the default host group is used when the resource-level one
is empty, and Connect applies both hard-coded defaults for each kind. -/
theorem hostGroup_resolution_witness :
    (Create e0 remote0 (.vm cr1)).calls =
      [.createNode
        (if cr1.forProvider.hostGroup = "" then e0.hostGroup else cr1.forProvider.hostGroup)
        (buildRequest cr1.forProvider)]
    ∧ (Connect env0 (.vm cr0)).out =
        .ok ⟨if spec0.url = "" then "http://127.0.0.1:8080" else spec0.url, "tok",
             if spec0.hostGroup = "" then "api" else spec0.hostGroup⟩
    ∧ (Connect env0 (.vm crCPC)).out =
        .ok ⟨if spec0.url = "" then "http://127.0.0.1:8080" else spec0.url, "tok",
             if spec0.hostGroup = "" then "api" else spec0.hostGroup⟩ :=
  ⟨(hostGroup_resolution e0 remote0 cr1 env0 spec0 "tok").2.1,
   (hostGroup_resolution e0 remote0 cr0 env0 spec0 "tok").2.2.2.1 rfl rfl rfl rfl,
   (hostGroup_resolution e0 remote0 crCPC env0 spec0 "tok").2.2.2.2 rfl rfl rfl rfl⟩

/-- C10: Observe always returns an empty connection-details map, even when the
remote VM is found; only a successful Create publishes details, namely the
hostname and ip keys. -/
theorem connection_details_from_create_only (e : ExtClient) (remote : Remote) :
    (∀ cr obs, (Observe e remote (.vm cr)).out = .ok obs → obs.connectionDetails = [])
    ∧ (∀ cr resp, remote.createNode (resolveHostGroup e.hostGroup cr.forProvider)
          (buildRequest cr.forProvider) = .ok resp →
        (Create e remote (.vm cr)).out =
          .ok ⟨[("hostname", resp.hostname), ("ip", resp.ip)]⟩) := by
  constructor
  · intro cr obs hout
    obtain ⟨re, ru, cd⟩ := obs
    by_cases hd : cr.wasDeleted
    · simp [Observe, hd] at hout
      simp [hout]
    · by_cases hn : cr.extName = ""
      · simp [Observe, hd, hn] at hout
        simp [hout]
      · cases hl : remote.getHostGroupNodes (resolveHostGroup e.hostGroup cr.forProvider) with
        | error err => simp [Observe, hd, hn, hl] at hout
        | ok nodes =>
          cases hf : findNode nodes cr.extName with
          | none =>
            simp [Observe, hd, hn, hl, hf] at hout
            simp [hout]
          | some n =>
            simp [Observe, hd, hn, hl, hf] at hout
            simp [hout]
  · intro cr resp hc
    simp [Create, hc]

/-- Witness for C10: the found-node observation of the sample remote carries
no connection details, while the sample Create publishes hostname and ip. -/
theorem connection_details_from_create_only_witness :
    (⟨true, true, []⟩ : ExtObservation).connectionDetails = []
    ∧ (Create e0 remote0 (.vm cr0)).out =
        .ok ⟨[("hostname", node0.hostname), ("ip", node0.ip)]⟩ :=
  ⟨(connection_details_from_create_only e0 remote0).1 cr1 ⟨true, true, []⟩ rfl,
   (connection_details_from_create_only e0 remote0).2 cr0 node0 rfl⟩

end SlicerVM
